import Mathlib

/-!
Shallow embedding of `pysunvox` (src/src/pysunvox/sunvox.py and
src/src/pysunvox/__main__.py): the high-level wrapper around the native
SunVox binding `pysunvox._core`.

The wrapper layer is embedded faithfully from the Python source.  The native
binding `_core` is a C extension not present in the repository sources; where
a claim depends on the native engine's behaviour, that behaviour is modelled
from the spec in definitions whose doc comments start with
`Modelled from the spec:`.  Native calls whose results the wrapper merely
inspects (e.g. `_core.open_slot` returning a status code) are parametrized:
the embedded method takes the native return value as an argument, so theorems
quantify over every possible native outcome.

Python integers are embedded as `Int`.  Native call traces are recorded as
`List NCall` so that claims about which native calls a wrapper method performs
(and how often) are expressible.
-/

namespace PySunVox

/-- The wrapper's exception type (`SunVoxError` in sunvox.py).  The Python
class is a single exception carrying a message string; the constructors below
distinguish the message produced at each raise site. -/
inductive SunVoxError where
  | alreadyInitialized
  | initFailed (code : Int)
  | openFailed (slotNum : Int) (code : Int)
  | loadFailed (code : Int)
  | loadFromMemoryFailed (code : Int)
  | saveFailed (code : Int)
  | saveToMemoryFailed
  | newModuleFailed (code : Int)
  | loadModuleFailed (code : Int)
  | newPatternFailed (code : Int)
  deriving DecidableEq, Repr

/-- `true` iff an `Except` result is an error (a raised `SunVoxError`). -/
def isErr {α : Type} : Except SunVoxError α → Bool
  | .error _ => true
  | .ok _ => false

/-- One native `_core` call, as recorded in a call trace. -/
inductive NCall where
  | init
  | deinit
  | openSlot (slotNum : Int)
  | closeSlot (slotNum : Int)
  | lockSlot (slotNum : Int)
  | unlockSlot (slotNum : Int)
  | load (slotNum : Int)
  | loadFromMemory (slotNum : Int)
  | save (slotNum : Int)
  | saveToMemory (slotNum : Int)
  | play (slotNum : Int)
  | playFromBeginning (slotNum : Int)
  | stop (slotNum : Int)
  | pause (slotNum : Int)
  | resume (slotNum : Int)
  | rewind (slotNum : Int) (line : Int)
  | getSongName (slotNum : Int)
  | setSongName (slotNum : Int)
  | getSongBpm (slotNum : Int)
  | getSongTpl (slotNum : Int)
  | getSongLengthFrames (slotNum : Int)
  | getSongLengthLines (slotNum : Int)
  | getCurrentLine (slotNum : Int)
  | endOfSong (slotNum : Int)
  | getAutostop (slotNum : Int)
  | setAutostop (slotNum : Int) (v : Int)
  | volume (slotNum : Int) (v : Int)
  | sendEvent (slotNum : Int)
  | getNumberOfModules (slotNum : Int)
  | findModule (slotNum : Int)
  | newModule (slotNum : Int)
  | loadModule (slotNum : Int)
  | getNumberOfPatterns (slotNum : Int)
  | findPattern (slotNum : Int)
  | newPattern (slotNum : Int)
  | getModuleFlags (slotNum : Int) (modNum : Int)
  | removeModule (slotNum : Int) (modNum : Int)
  | removePattern (slotNum : Int) (patNum : Int)
  | getPatternLines (slotNum : Int) (patNum : Int)
  | getPatternEvent (slotNum : Int) (patNum : Int)
  | setPatternEvent (slotNum : Int) (patNum : Int)
  deriving DecidableEq, Repr

/-! ## Engine handle (`class SunVox`) -/

/-- The state relevant to the `SunVox` engine class: the process-wide class
attribute `SunVox._initialized` and the instance attribute `self._version`. -/
structure SunVoxState where
  initialized : Bool
  version : Option Int
  deriving DecidableEq, Repr

/-- `SunVox.init` (sunvox.py lines 66-84), parametrized by the native
`_core.init` return value `r`.  Returns the post-state and either the version
(`.ok`) or the raised error.  The native call is attempted only when the
already-initialized guard passes, matching the source order. -/
def SunVox.init (st : SunVoxState) (r : Int) :
    SunVoxState × Except SunVoxError Int :=
  if st.initialized then
    (st, .error .alreadyInitialized)
  else if r < 0 then
    (st, .error (.initFailed r))
  else
    ({ initialized := true, version := some r }, .ok r)

/-- `SunVox.deinit` (sunvox.py lines 86-90).  The returned `Bool` records
whether the native `_core.deinit` call was performed. -/
def SunVox.deinit (st : SunVoxState) : SunVoxState × Bool :=
  if st.initialized then
    ({ st with initialized := false }, true)
  else
    (st, false)

/-! ## Slot handle (`class Slot`) -/

/-- The state of a `Slot` object: `self._slot` and `self._is_open`. -/
structure SlotState where
  slot : Int
  isOpen : Bool
  deriving DecidableEq, Repr

/-- `Slot.__init__` (sunvox.py lines 137-144): stores the slot number and sets
`_is_open = False`; performs no native call (empty trace). -/
def Slot.mkNew (slotNum : Int) : SlotState × List NCall :=
  ({ slot := slotNum, isOpen := false }, [])

/-- `SunVox.open_slot` (sunvox.py lines 112-121): returns `Slot(slot_num)`.
It reads no engine state (the `SunVoxState` argument is unused in the body,
exactly as the Python method ignores `self`'s state) and performs no native
call. -/
def SunVox.open_slot (_st : SunVoxState) (slotNum : Int) : SlotState × List NCall :=
  Slot.mkNew slotNum

/-- `Slot.open` (sunvox.py lines 163-172), parametrized by the native
`_core.open_slot` return value `r`. -/
def Slot.openSlot (s : SlotState) (r : Int) :
    SlotState × List NCall × Except SunVoxError Unit :=
  if r < 0 then
    (s, [.openSlot s.slot], .error (.openFailed s.slot r))
  else
    ({ s with isOpen := true }, [.openSlot s.slot], .ok ())

/-- `Slot.__enter__` (sunvox.py lines 146-148): calls `self.open()`. -/
def Slot.enter (s : SlotState) (r : Int) :
    SlotState × List NCall × Except SunVoxError Unit :=
  Slot.openSlot s r

/-- `Slot.close` (sunvox.py lines 174-178): calls native `_core.close_slot`
only when `_is_open` is true. -/
def Slot.close (s : SlotState) : SlotState × List NCall :=
  if s.isOpen then
    ({ s with isOpen := false }, [.closeSlot s.slot])
  else
    (s, [])

/-- `Slot.load` (sunvox.py lines 200-211), parametrized by the native return
value `r`.  No wrapper state is written on any path. -/
def Slot.load (s : SlotState) (r : Int) :
    SlotState × List NCall × Except SunVoxError Unit :=
  (s, [.load s.slot], if r < 0 then .error (.loadFailed r) else .ok ())

/-- `Slot.load_from_memory` (sunvox.py lines 213-224). -/
def Slot.load_from_memory (s : SlotState) (r : Int) :
    SlotState × List NCall × Except SunVoxError Unit :=
  (s, [.loadFromMemory s.slot], if r < 0 then .error (.loadFromMemoryFailed r) else .ok ())

/-- `Slot.save` (sunvox.py lines 226-237). -/
def Slot.save (s : SlotState) (r : Int) :
    SlotState × List NCall × Except SunVoxError Unit :=
  (s, [.save s.slot], if r < 0 then .error (.saveFailed r) else .ok ())

/-- `Slot.save_to_memory` (sunvox.py lines 239-251): the native call returns
either project bytes or the null sentinel (`none`). -/
def Slot.save_to_memory (s : SlotState) (r : Option (List Nat)) :
    SlotState × List NCall × Except SunVoxError (List Nat) :=
  (s, [.saveToMemory s.slot],
    match r with
    | none => .error .saveToMemoryFailed
    | some bs => .ok bs)

/-- A module reference: `Module.__init__` (sunvox.py lines 531-539) stores the
parent `Slot` object and the module number; every accessor uses only
`self._slot.slot_num` and `self._mod_num`, so the reference is the pair of
those two integers. -/
structure ModuleRef where
  slotNum : Int
  modNum : Int
  deriving DecidableEq, Repr

/-- A pattern reference: `Pattern.__init__` (sunvox.py lines 752-760), the
pair (slot number, pattern number). -/
structure PatternRef where
  slotNum : Int
  patNum : Int
  deriving DecidableEq, Repr

/-- `Slot.new_module` (sunvox.py lines 408-434), parametrized by the native
`_core.new_module` return value `r` (new module number or negative error). -/
def Slot.new_module (s : SlotState) (r : Int) :
    SlotState × List NCall × Except SunVoxError ModuleRef :=
  (s, [.newModule s.slot],
    if r < 0 then .error (.newModuleFailed r)
    else .ok { slotNum := s.slot, modNum := r })

/-- `Slot.load_module` (sunvox.py lines 436-458). -/
def Slot.load_module (s : SlotState) (r : Int) :
    SlotState × List NCall × Except SunVoxError ModuleRef :=
  (s, [.loadModule s.slot],
    if r < 0 then .error (.loadModuleFailed r)
    else .ok { slotNum := s.slot, modNum := r })

/-- `Slot.new_pattern` (sunvox.py lines 494-525). -/
def Slot.new_pattern (s : SlotState) (r : Int) :
    SlotState × List NCall × Except SunVoxError PatternRef :=
  (s, [.newPattern s.slot],
    if r < 0 then .error (.newPatternFailed r)
    else .ok { slotNum := s.slot, patNum := r })

/-! ## Native engine model

The `_core` C extension is a 1:1 pass-through to the native SunVox library;
its behaviour, where a claim depends on it, is modelled from the spec. -/

/-- One pattern cell: the fixed 5-field event record (note, velocity, module,
controller selector, controller value). -/
structure Event where
  note : Int
  vel : Int
  module : Int
  ctl : Int
  ctlVal : Int
  deriving DecidableEq, Repr

/-- The portion of the native engine's state that the modelled `_core` calls
read or write.  Flag words are machine-unsigned values, hence `Nat`. -/
structure NativeState where
  moduleFlags : Int → Int → Nat
  patternLines : Int → Int → Int
  slotVolume : Int → Int
  cells : Int → Int → Int → Int → Event

/-- Modelled from the spec: `SV_MODULE_FLAG_EXISTS`, a constant exported by
the missing `_core` C extension — "the bit in a module's flag word indicating
the slot index currently holds a live module". -/
def SV_MODULE_FLAG_EXISTS : Nat := 1

/-- Modelled from the spec: native `sv_volume(slot, v)` — the volume domain is
0-256 and a negative `v` is the "query only, do not set" sentinel, so a
negative argument leaves the state unchanged and returns the current volume,
while a non-negative argument stores `v`.  The returned `Int` is the volume
read back. -/
def coreVolume (ns : NativeState) (slotNum : Int) (v : Int) : NativeState × Int :=
  if v < 0 then
    (ns, ns.slotVolume slotNum)
  else
    ({ ns with slotVolume := fun s => if s = slotNum then v else ns.slotVolume s },
     ns.slotVolume slotNum)

/-- Modelled from the spec: native `sv_remove_module` removes the module, so
the flag word at that index no longer has the EXISTS bit — "stale-reference
reads must resolve to does not exist". -/
def coreRemoveModule (ns : NativeState) (slotNum modNum : Int) : NativeState :=
  { ns with
    moduleFlags := fun s m =>
      if s = slotNum ∧ m = modNum then 0 else ns.moduleFlags s m }

/-- Modelled from the spec: native `sv_remove_pattern` removes the pattern,
after which its line count at that index is no longer positive — a pattern
"is considered to exist only if its line count is greater than zero", and
removal follows the "same stale-reference rule as modules". -/
def coreRemovePattern (ns : NativeState) (slotNum patNum : Int) : NativeState :=
  { ns with
    patternLines := fun s p =>
      if s = slotNum ∧ p = patNum then 0 else ns.patternLines s p }

/-- Modelled from the spec: native `sv_set_pattern_event` — per field, a
negative value leaves that field of the cell unchanged ("-1 = leave unchanged
for writes"; the wrapper docstring: "Negative values are ignored"). -/
def coreSetPatternEvent (ns : NativeState) (slotNum patNum track line : Int)
    (note vel module ctl ctlVal : Int) : NativeState :=
  { ns with
    cells := fun s p t l =>
      if s = slotNum ∧ p = patNum ∧ t = track ∧ l = line then
        let old := ns.cells s p t l
        { note := if note < 0 then old.note else note
          vel := if vel < 0 then old.vel else vel
          module := if module < 0 then old.module else module
          ctl := if ctl < 0 then old.ctl else ctl
          ctlVal := if ctlVal < 0 then old.ctlVal else ctlVal }
      else ns.cells s p t l }

/-- Modelled from the spec: native `sv_get_pattern_event` returns field `i`
(0 = note, 1 = velocity, 2 = module, 3 = controller, 4 = controller value) of
the addressed cell; any other field index is an error sentinel. -/
def coreGetPatternEvent (ns : NativeState) (slotNum patNum track line i : Int) : Int :=
  let e := ns.cells slotNum patNum track line
  if i = 0 then e.note
  else if i = 1 then e.vel
  else if i = 2 then e.module
  else if i = 3 then e.ctl
  else if i = 4 then e.ctlVal
  else -1

/-! ## Slot volume property (sunvox.py lines 340-347) -/

/-- The `volume` property getter: `return _core.volume(self._slot, -1)` — it
always passes the `-1` query sentinel. -/
def Slot.getVolume (ns : NativeState) (s : SlotState) : NativeState × Int :=
  coreVolume ns s.slot (-1)

/-- The `volume` property setter: `_core.volume(self._slot, value)`. -/
def Slot.setVolume (ns : NativeState) (s : SlotState) (v : Int) : NativeState :=
  (coreVolume ns s.slot v).1

/-! ## Module accessors (`class Module`) -/

/-- `Module.exists` (sunvox.py lines 551-554):
`bool(_core.get_module_flags(slot_num, mod_num) & SV_MODULE_FLAG_EXISTS)`.
A total function: the property read returns a boolean on every input and
raises nothing. -/
def Module.existsb (ns : NativeState) (m : ModuleRef) : Bool :=
  (ns.moduleFlags m.slotNum m.modNum &&& SV_MODULE_FLAG_EXISTS) != 0

/-- `Module.remove` (sunvox.py lines 666-671):
`_core.remove_module(self._slot.slot_num, self._mod_num)`. -/
def Module.remove (ns : NativeState) (m : ModuleRef) : NativeState × List NCall :=
  (coreRemoveModule ns m.slotNum m.modNum, [.removeModule m.slotNum m.modNum])

/-! ## Pattern accessors (`class Pattern`) -/

/-- `Pattern.exists` (sunvox.py lines 772-775):
`_core.get_pattern_lines(slot_num, pat_num) > 0`. -/
def Pattern.existsb (ns : NativeState) (p : PatternRef) : Bool :=
  ns.patternLines p.slotNum p.patNum > 0

/-- `Pattern.remove` (sunvox.py lines 885-890):
`_core.remove_pattern(self._slot.slot_num, self._pat_num)`. -/
def Pattern.remove (ns : NativeState) (p : PatternRef) : NativeState × List NCall :=
  (coreRemovePattern ns p.slotNum p.patNum, [.removePattern p.slotNum p.patNum])

/-- `Pattern.get_event` (sunvox.py lines 826-842): the 5-tuple of the five
`_core.get_pattern_event` calls with field indices 0..4. -/
def Pattern.get_event (ns : NativeState) (p : PatternRef) (track line : Int) :
    Int × Int × Int × Int × Int :=
  (coreGetPatternEvent ns p.slotNum p.patNum track line 0,
   coreGetPatternEvent ns p.slotNum p.patNum track line 1,
   coreGetPatternEvent ns p.slotNum p.patNum track line 2,
   coreGetPatternEvent ns p.slotNum p.patNum track line 3,
   coreGetPatternEvent ns p.slotNum p.patNum track line 4)

/-- `Pattern.set_event` (sunvox.py lines 844-869): a single
`_core.set_pattern_event` call forwarding all five field arguments (each
defaulting to -1 in the Python signature). -/
def Pattern.set_event (ns : NativeState) (p : PatternRef) (track line : Int)
    (note vel module ctl ctlVal : Int) : NativeState :=
  coreSetPatternEvent ns p.slotNum p.patNum track line note vel module ctl ctlVal

/-! ## The scoped slot lock (sunvox.py lines 180-194) -/

/-- The outcome of the Python body of a `with slot.lock():` block: it either
completes normally or raises. -/
inductive BodyOutcome where
  | normal
  | raised (e : SunVoxError)
  deriving DecidableEq, Repr

/-- `Slot.lock` (sunvox.py lines 180-194): `_core.lock_slot`, then the body
under `try`, then `_core.unlock_slot` in the `finally` clause, so the unlock
call is appended to the trace on the normal path and on the raising path
alike.  The body is abstracted by the native calls it makes and its outcome;
the result propagates the body's outcome unchanged. -/
def Slot.lockScope (s : SlotState) (bodyCalls : List NCall) (outcome : BodyOutcome) :
    List NCall × BodyOutcome :=
  ([.lockSlot s.slot] ++ bodyCalls ++ [.unlockSlot s.slot], outcome)

/-- `true` on the one native call the lock scope must guarantee:
`_core.unlock_slot` on the given slot. -/
def NCall.isUnlockOf (slotNum : Int) : NCall → Bool
  | .unlockSlot n => n = slotNum
  | _ => false

/-! ## The slot method alphabet

One constructor per public method (and property access) of `class Slot`, so
that claims over arbitrary sequences of slot operations are expressible.
Methods whose native call returns a value the wrapper inspects carry that
native result as an oracle argument.  A `with slot.lock():` block flattens to
`opLockEnter`, the body's own method calls, then `opLockExit`. -/
inductive SlotOp where
  | opOpen (r : Int)
  | opClose
  | opLockEnter
  | opLockExit
  | opLoad (r : Int)
  | opLoadFromMemory (r : Int)
  | opSave (r : Int)
  | opSaveToMemory (r : Option (List Nat))
  | opPlay
  | opPlayFromBeginning
  | opStop
  | opPause
  | opResume
  | opRewind (line : Int)
  | opGetName
  | opSetName
  | opGetBpm
  | opGetTpl
  | opGetLengthFrames
  | opGetLengthLines
  | opGetCurrentLine
  | opIsPlaying
  | opGetAutostop
  | opSetAutostop (b : Bool)
  | opGetVolume
  | opSetVolume (v : Int)
  | opSendEvent
  | opNumModules
  | opGetModule (m : Int)
  | opFindModule (r : Int)
  | opNewModule (r : Int)
  | opLoadModule (r : Int)
  | opNumPatterns
  | opGetPattern (p : Int)
  | opFindPattern (r : Int)
  | opNewPattern (r : Int)
  deriving DecidableEq, Repr

/-- The effect of one slot method on the `Slot` object's state, together with
the native calls it performs.  Each arm is read off the corresponding method
body in sunvox.py; only `open` and `close` assign `self._is_open`. -/
def Slot.step (s : SlotState) : SlotOp → SlotState × List NCall
  | .opOpen r => ((Slot.openSlot s r).1, (Slot.openSlot s r).2.1)
  | .opClose => Slot.close s
  | .opLockEnter => (s, [.lockSlot s.slot])
  | .opLockExit => (s, [.unlockSlot s.slot])
  | .opLoad r => ((Slot.load s r).1, (Slot.load s r).2.1)
  | .opLoadFromMemory r => ((Slot.load_from_memory s r).1, (Slot.load_from_memory s r).2.1)
  | .opSave r => ((Slot.save s r).1, (Slot.save s r).2.1)
  | .opSaveToMemory r => ((Slot.save_to_memory s r).1, (Slot.save_to_memory s r).2.1)
  | .opPlay => (s, [.play s.slot])
  | .opPlayFromBeginning => (s, [.playFromBeginning s.slot])
  | .opStop => (s, [.stop s.slot])
  | .opPause => (s, [.pause s.slot])
  | .opResume => (s, [.resume s.slot])
  | .opRewind line => (s, [.rewind s.slot line])
  | .opGetName => (s, [.getSongName s.slot])
  | .opSetName => (s, [.setSongName s.slot])
  | .opGetBpm => (s, [.getSongBpm s.slot])
  | .opGetTpl => (s, [.getSongTpl s.slot])
  | .opGetLengthFrames => (s, [.getSongLengthFrames s.slot])
  | .opGetLengthLines => (s, [.getSongLengthLines s.slot])
  | .opGetCurrentLine => (s, [.getCurrentLine s.slot])
  | .opIsPlaying => (s, [.endOfSong s.slot])
  | .opGetAutostop => (s, [.getAutostop s.slot])
  | .opSetAutostop b => (s, [.setAutostop s.slot (if b then 1 else 0)])
  | .opGetVolume => (s, [.volume s.slot (-1)])
  | .opSetVolume v => (s, [.volume s.slot v])
  | .opSendEvent => (s, [.sendEvent s.slot])
  | .opNumModules => (s, [.getNumberOfModules s.slot])
  | .opGetModule _ => (s, [])
  | .opFindModule _ => (s, [.findModule s.slot])
  | .opNewModule r => ((Slot.new_module s r).1, (Slot.new_module s r).2.1)
  | .opLoadModule r => ((Slot.load_module s r).1, (Slot.load_module s r).2.1)
  | .opNumPatterns => (s, [.getNumberOfPatterns s.slot])
  | .opGetPattern _ => (s, [])
  | .opFindPattern _ => (s, [.findPattern s.slot])
  | .opNewPattern r => ((Slot.new_pattern s r).1, (Slot.new_pattern s r).2.1)

/-- Run a sequence of slot methods, threading the object state and
concatenating the native call traces.  A raised `SunVoxError` never assigns
wrapper state, so executing the remainder of the sequence models a caller
that catches and continues. -/
def Slot.run (s : SlotState) : List SlotOp → SlotState × List NCall
  | [] => (s, [])
  | op :: ops =>
    let st := Slot.step s op
    let rest := Slot.run st.1 ops
    (rest.1, st.2 ++ rest.2)

/-- `true` exactly on the `close` method. -/
def SlotOp.isClose : SlotOp → Bool
  | .opClose => true
  | _ => false

/-- `true` exactly on a native `_core.close_slot` call. -/
def NCall.isCloseCall : NCall → Bool
  | .closeSlot _ => true
  | _ => false

/-! ## CLI (`__main__.py`)

`cmd_info` and `cmd_play` are embedded down to the observables the claims are
about: the exit code (or a propagated `SunVoxError`), the error messages
printed to stderr, and the trace of engine lifecycle calls
(init / open / load / close / deinit).  Formatted stdout reporting after a
successful load only reads properties and is not part of the trace alphabet;
all non-error report branches end in `return 0`. -/

/-- An engine lifecycle call, as performed (directly or through the context
managers `with SunVox()` / `with sv.open_slot(0)`) by a CLI command. -/
inductive EngineCall where
  | init
  | openSlot (slotNum : Int)
  | load (path : String)
  | closeSlot (slotNum : Int)
  | deinit
  deriving DecidableEq, Repr

/-- An error message printed to stderr by the CLI (`print(..., file=sys.stderr)`). -/
inductive CLIMsg where
  | fileRequired
  | fileNotFound (path : String)
  | moduleNotFound (modId : Int)
  deriving DecidableEq, Repr

/-- The parsed arguments of the `info` subcommand (argparse namespace fields
used by `cmd_info`). -/
structure InfoArgs where
  lib_version : Bool
  file : Option String
  module : Option Int
  modules : Bool
  patterns : Bool
  deriving DecidableEq, Repr

/-- The environment a CLI command runs against: the filesystem existence
check (`Path(...).exists()`) and the native results of the engine calls the
command makes. -/
structure CLIEnv where
  fileExists : String → Bool
  initResult : Int
  openResult : Int
  loadResult : String → Int
  moduleExistsAt : Int → Bool

/-- The outcome of one CLI command: engine lifecycle calls made, stderr
messages printed, and either the returned exit code or a propagated
(uncaught) `SunVoxError`. -/
structure CLIOutcome where
  calls : List EngineCall
  stderr : List CLIMsg
  result : Except SunVoxError Int
  deriving Repr

/-- `cmd_info` (main.py lines 59-162).  Branch order follows the source:
`--version` first, then the missing-file-argument check, then the
`Path.exists` pre-check — both pre-checks return 1 with no engine call —
then `with SunVox(): with sv.open_slot(0): slot.load(...)`.  On an exception
inside a `with` block the already-entered context managers still close
(engine deinit, and slot close when the slot was opened).  With `--module id`
on a loaded project, a module whose EXISTS flag is clear yields a stderr
message and exit code 1; every other post-load report branch only reads
properties and returns 0. -/
def cmd_info (env : CLIEnv) (a : InfoArgs) : CLIOutcome :=
  if a.lib_version then
    if env.initResult < 0 then
      { calls := [.init], stderr := [], result := .error (.initFailed env.initResult) }
    else
      { calls := [.init, .deinit], stderr := [], result := .ok 0 }
  else
    match a.file with
    | none =>
      { calls := [], stderr := [.fileRequired], result := .ok 1 }
    | some f =>
      if env.fileExists f = false then
        { calls := [], stderr := [.fileNotFound f], result := .ok 1 }
      else if env.initResult < 0 then
        { calls := [.init], stderr := [], result := .error (.initFailed env.initResult) }
      else if env.openResult < 0 then
        { calls := [.init, .openSlot 0, .deinit], stderr := [],
          result := .error (.openFailed 0 env.openResult) }
      else if env.loadResult f < 0 then
        { calls := [.init, .openSlot 0, .load f, .closeSlot 0, .deinit], stderr := [],
          result := .error (.loadFailed (env.loadResult f)) }
      else
        match a.module with
        | some m =>
          if env.moduleExistsAt m = false then
            { calls := [.init, .openSlot 0, .load f, .closeSlot 0, .deinit],
              stderr := [.moduleNotFound m], result := .ok 1 }
          else
            { calls := [.init, .openSlot 0, .load f, .closeSlot 0, .deinit],
              stderr := [], result := .ok 0 }
        | none =>
          { calls := [.init, .openSlot 0, .load f, .closeSlot 0, .deinit],
            stderr := [], result := .ok 0 }

/-- `cmd_play` (main.py lines 165-202).  The `Path.exists` pre-check returns 1
with no engine call; after a successful load the playback loop (volume set,
timed polling, stop — real-time behaviour outside the lifecycle alphabet)
ends with exit code 0 on both the normal and the KeyboardInterrupt path. -/
def cmd_play (env : CLIEnv) (file : String) : CLIOutcome :=
  if env.fileExists file = false then
    { calls := [], stderr := [.fileNotFound file], result := .ok 1 }
  else if env.initResult < 0 then
    { calls := [.init], stderr := [], result := .error (.initFailed env.initResult) }
  else if env.openResult < 0 then
    { calls := [.init, .openSlot 0, .deinit], stderr := [],
      result := .error (.openFailed 0 env.openResult) }
  else if env.loadResult file < 0 then
    { calls := [.init, .openSlot 0, .load file, .closeSlot 0, .deinit], stderr := [],
      result := .error (.loadFailed (env.loadResult file)) }
  else
    { calls := [.init, .openSlot 0, .load file, .closeSlot 0, .deinit], stderr := [],
      result := .ok 0 }

/-! ## Shared concrete instances for witnesses -/

/-- A concrete native state with all-zero tables. -/
def nsZero : NativeState :=
  { moduleFlags := fun _ _ => 0
    patternLines := fun _ _ => 0
    slotVolume := fun _ => 0
    cells := fun _ _ _ _ => ⟨0, 0, 0, 0, 0⟩ }

/-- A CLI environment in which no path exists and all native calls succeed. -/
def envNoFile : CLIEnv :=
  { fileExists := fun _ => false
    initResult := 0
    openResult := 0
    loadResult := fun _ => 0
    moduleExistsAt := fun _ => false }

/-- A CLI environment in which every path exists, all native calls succeed,
and no module exists. -/
def envHasFile : CLIEnv :=
  { fileExists := fun _ => true
    initResult := 0
    openResult := 0
    loadResult := fun _ => 0
    moduleExistsAt := fun _ => false }

/-- `info song.sunvox` with no report flags. -/
def infoArgsPlain : InfoArgs :=
  { lib_version := false, file := some "song.sunvox"
    module := none, modules := false, patterns := false }

/-- `info song.sunvox --module 3`. -/
def infoArgsModule : InfoArgs :=
  { lib_version := false, file := some "song.sunvox"
    module := some 3, modules := false, patterns := false }

/-! ## Helper lemmas -/

/-- Any slot method other than `close` leaves an open slot open: only the
`open` and `close` arms of `Slot.step` assign `_is_open`, and `open` can only
set it to `true`. -/
theorem step_preserves_isOpen (s : SlotState) (op : SlotOp)
    (h : op.isClose = false) (ho : s.isOpen = true) :
    (Slot.step s op).1.isOpen = true := by
  cases op <;>
    simp_all [Slot.step, Slot.openSlot, Slot.close, Slot.load,
      Slot.load_from_memory, Slot.save, Slot.save_to_memory, Slot.new_module,
      Slot.load_module, Slot.new_pattern, SlotOp.isClose] <;>
    split <;> simp_all

/-- A close-free sequence of slot methods leaves an open slot open. -/
theorem run_preserves_isOpen (ops : List SlotOp) :
    ∀ s : SlotState, (∀ op ∈ ops, op.isClose = false) → s.isOpen = true →
      (Slot.run s ops).1.isOpen = true := by
  induction ops with
  | nil => intro s _ ho; simpa [Slot.run] using ho
  | cons op ops ih =>
    intro s h ho
    simp only [Slot.run]
    exact ih _ (fun o hm => h o (List.mem_cons_of_mem _ hm))
      (step_preserves_isOpen s op (h op (List.mem_cons_self _ _)) ho)

/-- `close` on an already-closed slot is a no-op, and stays one under
repetition: no state change and no native call. -/
theorem run_close_closed (n : Nat) :
    ∀ s : SlotState, s.isOpen = false →
      Slot.run s (List.replicate n SlotOp.opClose) = (s, []) := by
  induction n with
  | zero => intro s _; simp [Slot.run]
  | succ n ih =>
    intro s h
    rw [List.replicate_succ]
    simp only [Slot.run, Slot.step, Slot.close, h]
    simp [h, ih s h]

/-- Running one or more consecutive `close` calls: the slot ends closed and
the native `_core.close_slot` call happens exactly once when the slot was
open, never otherwise. -/
theorem run_replicate_close (n : Nat) (s : SlotState) :
    Slot.run s (List.replicate (n + 1) SlotOp.opClose)
      = (⟨s.slot, false⟩, if s.isOpen then [NCall.closeSlot s.slot] else []) := by
  rw [List.replicate_succ]
  cases hs : s.isOpen with
  | false =>
    have hse : ({ slot := s.slot, isOpen := false } : SlotState) = s := by
      cases s; simp_all
    simp only [Slot.run, Slot.step, Slot.close, hs]
    simp [run_close_closed n s hs, hse, hs]
  | true =>
    simp only [Slot.run, Slot.step, Slot.close, hs]
    simp [run_close_closed n ⟨s.slot, false⟩ rfl, hs]

/-! ## Claims -/

/-- C1: calling `init()` while the engine is already initialized raises
`SunVoxError` ("already initialized") and leaves the initialized state and
stored version unchanged; `deinit()` is a no-op (no native call) when not
initialized; after `deinit()`, a subsequent `init()` succeeds again whenever
the native call succeeds. -/
theorem c1_init_deinit_lifecycle
    (st : SunVoxState) (h : st.initialized = true) (r : Int)
    (st₀ : SunVoxState) (h₀ : st₀.initialized = false)
    (r' : Int) (h' : 0 ≤ r') :
    SunVox.init st r = (st, .error .alreadyInitialized)
    ∧ SunVox.deinit st₀ = (st₀, false)
    ∧ SunVox.init (SunVox.deinit st).1 r'
        = ({ initialized := true, version := some r' }, .ok r') := by
  refine ⟨?_, ?_, ?_⟩
  · simp [SunVox.init, h]
  · simp [SunVox.deinit, h₀]
  · simp [SunVox.init, SunVox.deinit, h, Int.not_lt.mpr h']

/-- Witness for C1 at concrete states and native results. -/
theorem c1_witness :
    (⟨true, some 5⟩ : SunVoxState).initialized = true
    ∧ (⟨false, none⟩ : SunVoxState).initialized = false
    ∧ (0 : Int) ≤ 3
    ∧ (SunVox.init ⟨true, some 5⟩ 7 = (⟨true, some 5⟩, .error .alreadyInitialized)
       ∧ SunVox.deinit ⟨false, none⟩ = (⟨false, none⟩, false)
       ∧ SunVox.init (SunVox.deinit ⟨true, some 5⟩).1 3
           = ({ initialized := true, version := some 3 }, .ok 3)) :=
  ⟨rfl, rfl, by decide,
   c1_init_deinit_lifecycle ⟨true, some 5⟩ rfl 7 ⟨false, none⟩ rfl 3 (by decide)⟩

/-- C3: the scoped slot lock performs the native `unlock_slot` call on every
exit path: the trace of the scope contains exactly one more `unlock_slot`
call on this slot than the body itself makes, whether the body's outcome is
normal completion or a raised exception, and the outcome is propagated
unchanged. -/
theorem c3_lock_scope_unlocks (s : SlotState) (bodyCalls : List NCall)
    (outcome : BodyOutcome) :
    ((Slot.lockScope s bodyCalls outcome).1.filter (NCall.isUnlockOf s.slot)).length
      = (bodyCalls.filter (NCall.isUnlockOf s.slot)).length + 1
    ∧ (Slot.lockScope s bodyCalls outcome).2 = outcome := by
  refine ⟨?_, rfl⟩
  simp [Slot.lockScope, NCall.isUnlockOf, List.filter_append]

/-- C5: after `Module.remove()` (respectively `Pattern.remove()`),
re-querying `exists` through the same (slot, index) reference returns
`False` (the re-query resolves to "does not exist" rather than an error),
and each `remove` performs exactly its one native remove call. -/
theorem c5_stale_reference_after_remove (ns : NativeState) (m : ModuleRef)
    (p : PatternRef) :
    Module.existsb (Module.remove ns m).1 m = false
    ∧ (Module.remove ns m).2 = [NCall.removeModule m.slotNum m.modNum]
    ∧ Pattern.existsb (Pattern.remove ns p).1 p = false
    ∧ (Pattern.remove ns p).2 = [NCall.removePattern p.slotNum p.patNum] := by
  refine ⟨?_, rfl, ?_, rfl⟩
  · simp [Module.remove, Module.existsb, coreRemoveModule]
  · simp [Pattern.remove, Pattern.existsb, coreRemovePattern]

/-- C10: `SunVox.open_slot` and the `Slot` constructor perform no native call
and do not open the slot: the returned slot has `is_open = false`, the result
is independent of the engine's state (no initialization check), and
context-manager entry (`__enter__`) is exactly a call to `open()`. -/
theorem c10_open_slot_is_pure (st st' : SunVoxState) (n : Int) :
    SunVox.open_slot st n = ({ slot := n, isOpen := false }, [])
    ∧ (SunVox.open_slot st n).1.isOpen = false
    ∧ SunVox.open_slot st n = SunVox.open_slot st' n
    ∧ Slot.mkNew n = ({ slot := n, isOpen := false }, [])
    ∧ (∀ (s : SlotState) (r : Int), Slot.enter s r = Slot.openSlot s r) :=
  ⟨rfl, rfl, rfl, rfl, fun _ _ => rfl⟩

/-- C2: after a successful `open()` the `is_open` property is true and stays
true under any close-free sequence of slot methods; `close()` on a
never-opened slot does nothing (no native call); and any number of
consecutive `close()` calls leaves `is_open` false while performing the
native `close_slot` call at most once. -/
theorem c2_is_open_lifecycle
    (s : SlotState) (r : Int) (hr : 0 ≤ r)
    (ops : List SlotOp) (hops : ∀ op ∈ ops, op.isClose = false)
    (s₀ : SlotState) (h₀ : s₀.isOpen = false)
    (s₁ : SlotState) (n : Nat) :
    (Slot.openSlot s r).1.isOpen = true
    ∧ (Slot.run (Slot.openSlot s r).1 ops).1.isOpen = true
    ∧ Slot.close s₀ = (s₀, [])
    ∧ (Slot.run s₁ (List.replicate (n + 1) SlotOp.opClose)).1.isOpen = false
    ∧ ((Slot.run s₁ (List.replicate (n + 1) SlotOp.opClose)).2.filter
        NCall.isCloseCall).length ≤ 1 := by
  have hopen : (Slot.openSlot s r).1.isOpen = true := by
    simp [Slot.openSlot, Int.not_lt.mpr hr]
  refine ⟨hopen, run_preserves_isOpen ops _ hops hopen, ?_, ?_, ?_⟩
  · simp [Slot.close, h₀]
  · simp [run_replicate_close]
  · rw [run_replicate_close]
    cases hs : s₁.isOpen <;> simp [NCall.isCloseCall]

/-- Witness for C2 at a concrete slot, native result, and method sequence. -/
theorem c2_witness :
    (0 : Int) ≤ 0
    ∧ (⟨1, false⟩ : SlotState).isOpen = false
    ∧ ((Slot.openSlot ⟨0, false⟩ 0).1.isOpen = true
       ∧ (Slot.run (Slot.openSlot ⟨0, false⟩ 0).1 [SlotOp.opPlay]).1.isOpen = true
       ∧ Slot.close ⟨1, false⟩ = (⟨1, false⟩, [])
       ∧ (Slot.run ⟨2, true⟩ (List.replicate 2 SlotOp.opClose)).1.isOpen = false
       ∧ ((Slot.run ⟨2, true⟩ (List.replicate 2 SlotOp.opClose)).2.filter
           NCall.isCloseCall).length ≤ 1) :=
  ⟨by decide, rfl,
   c2_is_open_lifecycle ⟨0, false⟩ 0 (by decide) [SlotOp.opPlay] (by decide)
     ⟨1, false⟩ rfl ⟨2, true⟩ 1⟩

/-- C4: `Module.exists` is true iff the module's flag word has the EXISTS bit
set, `Pattern.exists` is true iff the pattern's line count is positive, and a
module whose flags have EXISTS clear reports `exists = false` (the property
is a total boolean read — it cannot raise). -/
theorem c4_exists_is_derived (ns : NativeState) (m : ModuleRef)
    (hm : ns.moduleFlags m.slotNum m.modNum &&& SV_MODULE_FLAG_EXISTS = 0) :
    (∀ (ns' : NativeState) (m' : ModuleRef),
        Module.existsb ns' m' = true
          ↔ ns'.moduleFlags m'.slotNum m'.modNum &&& SV_MODULE_FLAG_EXISTS ≠ 0)
    ∧ (∀ (ns' : NativeState) (p' : PatternRef),
        Pattern.existsb ns' p' = true
          ↔ 0 < ns'.patternLines p'.slotNum p'.patNum)
    ∧ Module.existsb ns m = false := by
  refine ⟨?_, ?_, ?_⟩
  · intro ns' m'
    simp [Module.existsb]
  · intro ns' p'
    simp [Pattern.existsb]
  · simp [Module.existsb, hm]

/-- Witness for C4 at an all-zero flag table. -/
theorem c4_witness :
    nsZero.moduleFlags 0 0 &&& SV_MODULE_FLAG_EXISTS = 0
    ∧ Module.existsb nsZero ⟨0, 0⟩ = false :=
  ⟨rfl, (c4_exists_is_derived nsZero ⟨0, 0⟩ rfl).2.2⟩

/-- C6: for `v` in 0..256, setting `slot.volume = v` and reading it back
returns `v`; the getter always passes the `-1` sentinel to the native volume
call, returning the current volume and leaving the native state unchanged. -/
theorem c6_volume_roundtrip (ns : NativeState) (s : SlotState) (v : Int)
    (h0 : 0 ≤ v) (h256 : v ≤ 256) :
    (Slot.getVolume (Slot.setVolume ns s v) s).2 = v
    ∧ (∀ (ns' : NativeState) (s' : SlotState),
        Slot.getVolume ns' s' = (ns', ns'.slotVolume s'.slot)) := by
  refine ⟨?_, ?_⟩
  · simp [Slot.getVolume, Slot.setVolume, coreVolume, Int.not_lt.mpr h0]
  · intro ns' s'
    simp [Slot.getVolume, coreVolume]

/-- Witness for C6 at volume 128. -/
theorem c6_witness :
    (0 : Int) ≤ 128 ∧ (128 : Int) ≤ 256
    ∧ (Slot.getVolume (Slot.setVolume nsZero ⟨0, true⟩ 128) ⟨0, true⟩).2 = 128 :=
  ⟨by decide, by decide,
   (c6_volume_roundtrip nsZero ⟨0, true⟩ 128 (by decide) (by decide)).1⟩

/-- C7: `set_event` writes exactly the fields whose arguments are
non-negative (a -1 argument leaves that field of the cell unchanged), and a
subsequent `get_event` on the same cell returns the resulting five-field
record; in particular after `set_event(t, l, note=60, vel=100, module=1)` the
read-back is `(60, 100, 1, old ctl, old ctl_val)`. -/
theorem c7_set_then_get_event (ns : NativeState) (p : PatternRef)
    (track line note vel module ctl ctlVal : Int) :
    Pattern.get_event (Pattern.set_event ns p track line note vel module ctl ctlVal)
        p track line
      = ((if note < 0 then (ns.cells p.slotNum p.patNum track line).note else note),
         (if vel < 0 then (ns.cells p.slotNum p.patNum track line).vel else vel),
         (if module < 0 then (ns.cells p.slotNum p.patNum track line).module else module),
         (if ctl < 0 then (ns.cells p.slotNum p.patNum track line).ctl else ctl),
         (if ctlVal < 0 then (ns.cells p.slotNum p.patNum track line).ctlVal else ctlVal))
    ∧ Pattern.get_event (Pattern.set_event ns p track line 60 100 1 (-1) (-1))
        p track line
      = (60, 100, 1, (ns.cells p.slotNum p.patNum track line).ctl,
         (ns.cells p.slotNum p.patNum track line).ctlVal) := by
  constructor
  · simp [Pattern.get_event, Pattern.set_event, coreGetPatternEvent,
      coreSetPatternEvent]
  · norm_num [Pattern.get_event, Pattern.set_event, coreGetPatternEvent,
      coreSetPatternEvent]

/-- C8: each fallible façade operation raises `SunVoxError` exactly when the
native return value is negative (`none` for `save_to_memory`), and on the
error path the wrapper state is unchanged — in particular a failed `open`
leaves `is_open` false. -/
theorem c8_error_iff_negative (s : SlotState) (r : Int) (ro : Option (List Nat))
    (r' : Int) (h' : r' < 0) (s₀ : SlotState) (h₀ : s₀.isOpen = false) :
    (isErr (Slot.openSlot s r).2.2 = decide (r < 0))
    ∧ ((Slot.openSlot s r).1 = if r < 0 then s else { s with isOpen := true })
    ∧ (isErr (Slot.load s r).2.2 = decide (r < 0)) ∧ ((Slot.load s r).1 = s)
    ∧ (isErr (Slot.load_from_memory s r).2.2 = decide (r < 0))
    ∧ ((Slot.load_from_memory s r).1 = s)
    ∧ (isErr (Slot.save s r).2.2 = decide (r < 0)) ∧ ((Slot.save s r).1 = s)
    ∧ (isErr (Slot.save_to_memory s ro).2.2 = ro.isNone)
    ∧ ((Slot.save_to_memory s ro).1 = s)
    ∧ (isErr (Slot.new_module s r).2.2 = decide (r < 0))
    ∧ ((Slot.new_module s r).1 = s)
    ∧ (isErr (Slot.new_pattern s r).2.2 = decide (r < 0))
    ∧ ((Slot.new_pattern s r).1 = s)
    ∧ (Slot.openSlot s₀ r').1.isOpen = false := by
  refine ⟨?_, ?_, ?_, rfl, ?_, rfl, ?_, rfl, ?_, rfl, ?_, rfl, ?_, rfl, ?_⟩
  · by_cases hr : r < 0 <;> simp [Slot.openSlot, isErr, hr]
  · by_cases hr : r < 0 <;> simp [Slot.openSlot, hr]
  · by_cases hr : r < 0 <;> simp [Slot.load, isErr, hr]
  · by_cases hr : r < 0 <;> simp [Slot.load_from_memory, isErr, hr]
  · by_cases hr : r < 0 <;> simp [Slot.save, isErr, hr]
  · cases ro <;> simp [Slot.save_to_memory, isErr]
  · by_cases hr : r < 0 <;> simp [Slot.new_module, isErr, hr]
  · by_cases hr : r < 0 <;> simp [Slot.new_pattern, isErr, hr]
  · simp [Slot.openSlot, h', h₀]

/-- Witness for C8 at concrete native results (success code 5, failure code
-1, non-null saved bytes). -/
theorem c8_witness :
    (-1 : Int) < 0
    ∧ (⟨0, false⟩ : SlotState).isOpen = false
    ∧ ((isErr (Slot.openSlot ⟨0, false⟩ 5).2.2 = decide ((5 : Int) < 0))
       ∧ ((Slot.openSlot ⟨0, false⟩ 5).1
            = if (5 : Int) < 0 then (⟨0, false⟩ : SlotState) else ⟨0, true⟩)
       ∧ (isErr (Slot.load ⟨0, false⟩ 5).2.2 = decide ((5 : Int) < 0))
       ∧ ((Slot.load ⟨0, false⟩ 5).1 = ⟨0, false⟩)
       ∧ (isErr (Slot.load_from_memory ⟨0, false⟩ 5).2.2 = decide ((5 : Int) < 0))
       ∧ ((Slot.load_from_memory ⟨0, false⟩ 5).1 = ⟨0, false⟩)
       ∧ (isErr (Slot.save ⟨0, false⟩ 5).2.2 = decide ((5 : Int) < 0))
       ∧ ((Slot.save ⟨0, false⟩ 5).1 = ⟨0, false⟩)
       ∧ (isErr (Slot.save_to_memory ⟨0, false⟩ (some [7])).2.2
            = (some [7]).isNone)
       ∧ ((Slot.save_to_memory ⟨0, false⟩ (some [7])).1 = ⟨0, false⟩)
       ∧ (isErr (Slot.new_module ⟨0, false⟩ 5).2.2 = decide ((5 : Int) < 0))
       ∧ ((Slot.new_module ⟨0, false⟩ 5).1 = ⟨0, false⟩)
       ∧ (isErr (Slot.new_pattern ⟨0, false⟩ 5).2.2 = decide ((5 : Int) < 0))
       ∧ ((Slot.new_pattern ⟨0, false⟩ 5).1 = ⟨0, false⟩)
       ∧ (Slot.openSlot ⟨0, false⟩ (-1)).1.isOpen = false) :=
  ⟨by decide, rfl,
   c8_error_iff_negative ⟨0, false⟩ 5 (some [7]) (-1) (by decide) ⟨0, false⟩ rfl⟩

/-- C9: the `info` and `play` subcommands, given a file argument naming a
nonexistent path, print a file-not-found message and return exit code 1 with
no engine call (init/open/load) attempted; and `info --module id` on a
loaded project whose module `id` does not exist returns exit code 1 with a
module-not-found message. -/
theorem c9_cli_prechecks :
    (∀ (env : CLIEnv) (a : InfoArgs) (f : String),
        a.lib_version = false → a.file = some f → env.fileExists f = false →
        cmd_info env a
          = { calls := [], stderr := [.fileNotFound f], result := .ok 1 })
    ∧ (∀ (env : CLIEnv) (f : String), env.fileExists f = false →
        cmd_play env f
          = { calls := [], stderr := [.fileNotFound f], result := .ok 1 })
    ∧ (∀ (env : CLIEnv) (a : InfoArgs) (f : String) (m : Int),
        a.lib_version = false → a.file = some f → env.fileExists f = true →
        0 ≤ env.initResult → 0 ≤ env.openResult → 0 ≤ env.loadResult f →
        a.module = some m → env.moduleExistsAt m = false →
        (cmd_info env a).result = .ok 1
        ∧ (cmd_info env a).stderr = [.moduleNotFound m]) := by
  refine ⟨?_, ?_, ?_⟩
  · intro env a f hv hf hex
    simp [cmd_info, hv, hf, hex]
  · intro env f hex
    simp [cmd_play, hex]
  · intro env a f m hv hf hex hi ho hl hm hme
    simp [cmd_info, hv, hf, hex, hm, hme,
      Int.not_lt.mpr hi, Int.not_lt.mpr ho, Int.not_lt.mpr hl]

/-- Witness for C9: a missing `song.sunvox` for both subcommands, and a
present file whose module 3 does not exist. -/
theorem c9_witness :
    envNoFile.fileExists "song.sunvox" = false
    ∧ envHasFile.fileExists "song.sunvox" = true
    ∧ cmd_info envNoFile infoArgsPlain
        = { calls := [], stderr := [.fileNotFound "song.sunvox"], result := .ok 1 }
    ∧ cmd_play envNoFile "song.sunvox"
        = { calls := [], stderr := [.fileNotFound "song.sunvox"], result := .ok 1 }
    ∧ (cmd_info envHasFile infoArgsModule).result = .ok 1
    ∧ (cmd_info envHasFile infoArgsModule).stderr = [.moduleNotFound 3] :=
  ⟨rfl, rfl,
   c9_cli_prechecks.1 envNoFile infoArgsPlain "song.sunvox" rfl rfl rfl,
   c9_cli_prechecks.2.1 envNoFile "song.sunvox" rfl,
   (c9_cli_prechecks.2.2 envHasFile infoArgsModule "song.sunvox" 3 rfl rfl rfl
     (by decide) (by decide) (by decide) rfl rfl).1,
   (c9_cli_prechecks.2.2 envHasFile infoArgsModule "song.sunvox" 3 rfl rfl rfl
     (by decide) (by decide) (by decide) rfl rfl).2⟩

end PySunVox
